import Mathlib

/-!
Shallow embedding of the postings serialization engine
(src/src/postings/serializer.rs) and verification of its specification.

The three output sinks are modelled as the byte sequences written so far;
the external codec and dictionary collaborators, whose sources are not part
of the repository excerpt, are modelled from the behavioural contract the
specification gives for them.
-/

set_option maxRecDepth 100000

namespace Tantivy

/-- Modelled from the spec: the fixed block length of the full-block codec
(the constant NUM_DOCS_PER_BLOCK of the external compression module). -/
def NUM_DOCS_PER_BLOCK : Nat := 128

/-- Modelled from the spec: the per-field indexing feature snapshot returned
by the schema-backed resolver — no tracking (Unindexed, Untokenized),
frequencies only, or frequencies and positions. -/
inductive TextIndexingOptions where
  | Unindexed
  | Untokenized
  | TokenizedWithFreq
  | TokenizedWithFreqAndPosition
  deriving DecidableEq

/-- Modelled from the spec: whether term-frequency tracking is active for this
snapshot. -/
def TextIndexingOptions.is_termfreq_enabled : TextIndexingOptions → Bool
  | .TokenizedWithFreq => true
  | .TokenizedWithFreqAndPosition => true
  | _ => false

/-- Modelled from the spec: whether position tracking is active for this
snapshot. -/
def TextIndexingOptions.is_position_enabled : TextIndexingOptions → Bool
  | .TokenizedWithFreqAndPosition => true
  | _ => false

/-- A field type from the schema: a text field carrying its configured
indexing options, or a numeric (U32) field carrying its indexed flag. -/
inductive FieldType where
  | Str (indexing : TextIndexingOptions)
  | U32 (indexed : Bool)
  deriving DecidableEq

/-- Modelled from the spec: variable-length (VInt) byte serialization of one
unsigned integer, seven payload bits per byte, low bits first. -/
def vintBytes (n : Nat) : List Nat :=
  if n < 128 then [n]
  else (n % 128 + 128) :: vintBytes (n / 128)
termination_by n
decreasing_by exact Nat.div_lt_self (by omega) (by omega)

/-- Modelled from the spec: fixed-width little-endian byte serialization of
one 32-bit word; the bit-level layout of the block codec is delegated. -/
def u32Bytes (n : Nat) : List Nat :=
  [n % 256, n / 256 % 256, n / 65536 % 256, n / 16777216 % 256]

/-- Modelled from the spec: delta encoding of a sorted sequence against a
baseline — each value minus its predecessor, the first minus the baseline. -/
def deltaEncode (baseline : Nat) : List Nat → List Nat
  | [] => []
  | v :: vs => (v - baseline) :: deltaEncode v vs

/-- Modelled from the spec: the sorted full-block codec form — delta-encode
the block against the supplied baseline and emit fixed-width words. -/
def compress_block_sorted (vals : List Nat) (baseline : Nat) : List Nat :=
  (deltaEncode baseline vals).flatMap u32Bytes

/-- Modelled from the spec: the unsorted full-block codec form — encode the
values independently as fixed-width words. -/
def compress_block_unsorted (vals : List Nat) : List Nat :=
  vals.flatMap u32Bytes

/-- Modelled from the spec: the sorted variable-length fallback form —
delta-encode against the baseline and emit each delta as a VInt. -/
def compress_vint_sorted (vals : List Nat) (baseline : Nat) : List Nat :=
  (deltaEncode baseline vals).flatMap vintBytes

/-- Modelled from the spec: the unsorted variable-length fallback form yields
the sequence of values, each of which the serializer then serializes
individually (each value writing its own encoded length). -/
def compress_vint_unsorted (vals : List Nat) : List Nat :=
  vals

/-- Modelled from the spec: the unsorted form of the positions encoder — the
whole pending delta sequence encoded as one self-contained unit. -/
def compress_unsorted (vals : List Nat) : List Nat :=
  vals.flatMap vintBytes

/-- TermInfo — the value stored per term in the dictionary. -/
structure TermInfo where
  doc_freq : Nat
  postings_offset : Nat
  positions_offset : Nat
  deriving DecidableEq

/-- State of the PostingsSerializer. The dictionary builder is modelled by
the list of insertions performed so far, and the two byte sinks by the byte
sequences written so far; the stateless encoder objects are elided. -/
structure PostingsSerializer where
  terms_fst : List (List Nat × TermInfo)
  postings_write : List Nat
  positions_write : List Nat
  written_bytes_postings : Nat
  written_bytes_positions : Nat
  last_doc_id_encoded : Nat
  doc_ids : List Nat
  term_freqs : List Nat
  position_deltas : List Nat
  schema : List FieldType
  text_indexing_options : TextIndexingOptions
  term_open : Bool
  deriving DecidableEq

/-- PostingsSerializer::open — a fresh serializer over the given schema:
empty sinks, zero byte counts, empty buffers, zero delta baseline,
Unindexed options and no open term. -/
def openSerializer (schema : List FieldType) : PostingsSerializer :=
  { terms_fst := []
    postings_write := []
    positions_write := []
    written_bytes_postings := 0
    written_bytes_positions := 0
    last_doc_id_encoded := 0
    doc_ids := []
    term_freqs := []
    position_deltas := []
    schema := schema
    text_indexing_options := .Unindexed
    term_open := false }

/-- The match inside PostingsSerializer::load_indexing_options: a text field
uses its configured indexing options; a numeric (U32) field maps indexed to
Unindexed and not-indexed to Untokenized. Fields are identified by their
index into the schema. -/
def resolveOptions (schema : List FieldType) (field : Nat) : TextIndexingOptions :=
  match schema.getD field (FieldType.Str .Unindexed) with
  | .Str text_options => text_options
  | .U32 indexed => if indexed then .Unindexed else .Untokenized

/-- PostingsSerializer::load_indexing_options — snapshot the indexing options
resolved for the given field. -/
def load_indexing_options (s : PostingsSerializer) (field : Nat) : PostingsSerializer :=
  { s with text_indexing_options := resolveOptions s.schema field }

/-- PostingsSerializer::new_term — returns none when a term is already open
(the source panics there). Otherwise: mark the term open, snapshot the
indexing options of the field, clear the per-term buffers, reset the delta
baseline, and insert a TermInfo carrying the current byte totals (the source
casts the usize totals to u32) into the dictionary builder. The flag
insert_ok models the io::Result of that fallible insertion and is returned
as the Bool component (true = Ok); the state mutations happen regardless. -/
def new_term (s : PostingsSerializer) (field : Nat) (term_bytes : List Nat)
    (doc_freq : Nat) (insert_ok : Bool) : Option (PostingsSerializer × Bool) :=
  if s.term_open then
    none
  else
    let s1 := { s with term_open := true }
    let s2 := load_indexing_options s1 field
    let s3 := { s2 with doc_ids := [], last_doc_id_encoded := 0,
                        term_freqs := [], position_deltas := [] }
    let term_info : TermInfo :=
      { doc_freq := doc_freq
        postings_offset := s3.written_bytes_postings % 4294967296
        positions_offset := s3.written_bytes_positions % 4294967296 }
    if insert_ok then
      some ({ s3 with terms_fst := s3.terms_fst ++ [(term_bytes, term_info)] }, true)
    else
      some (s3, false)

/-- PostingsSerializer::write_doc — buffer the document id (and, feature
gated, the term frequency and the position deltas); when the pending
document-id buffer reaches NUM_DOCS_PER_BLOCK, flush the doc-id block with
the sorted full-block form baselined at last_doc_id_encoded, then, if
frequencies are enabled, the frequency block with the unsorted full-block
form, clearing the flushed buffers. -/
def write_doc (s : PostingsSerializer) (doc_id : Nat) (term_freq : Nat)
    (position_deltas : List Nat) : PostingsSerializer :=
  let s1 := { s with doc_ids := s.doc_ids ++ [doc_id] }
  let s2 :=
    if s1.text_indexing_options.is_termfreq_enabled then
      { s1 with term_freqs := s1.term_freqs ++ [term_freq] }
    else s1
  let s3 :=
    if s2.text_indexing_options.is_position_enabled then
      { s2 with position_deltas := s2.position_deltas ++ position_deltas }
    else s2
  if s3.doc_ids.length = NUM_DOCS_PER_BLOCK then
    let block_encoded := compress_block_sorted s3.doc_ids s3.last_doc_id_encoded
    let s4 := { s3 with
      last_doc_id_encoded := s3.doc_ids.getLastD 0
      postings_write := s3.postings_write ++ block_encoded
      written_bytes_postings := s3.written_bytes_postings + block_encoded.length }
    let s5 :=
      if s4.text_indexing_options.is_termfreq_enabled then
        let freqs_encoded := compress_block_unsorted s4.term_freqs
        { s4 with
          postings_write := s4.postings_write ++ freqs_encoded
          written_bytes_postings := s4.written_bytes_postings + freqs_encoded.length
          term_freqs := [] }
      else s4
    { s5 with doc_ids := [] }
  else
    s3

/-- PostingsSerializer::close_term — a no-op when no term is open. Otherwise:
if doc ids are pending, flush them with the sorted VInt fallback baselined at
last_doc_id_encoded and, if frequencies are enabled, serialize each pending
frequency individually (adding the encoded length of each); then, if
positions are enabled, write the VInt count of pending position deltas
followed by their unsorted encoding; finally leave the open-term state. -/
def close_term (s : PostingsSerializer) : PostingsSerializer :=
  if s.term_open then
    let s1 :=
      if s.doc_ids.isEmpty then s
      else
        let block_encoded := compress_vint_sorted s.doc_ids s.last_doc_id_encoded
        let sa := { s with
          written_bytes_postings := s.written_bytes_postings + block_encoded.length
          postings_write := s.postings_write ++ block_encoded
          doc_ids := [] }
        if sa.text_indexing_options.is_termfreq_enabled then
          let sb := (compress_vint_unsorted sa.term_freqs).foldl
            (fun acc num =>
              { acc with
                written_bytes_postings :=
                  acc.written_bytes_postings + (vintBytes num).length
                postings_write := acc.postings_write ++ vintBytes num }) sa
          { sb with term_freqs := [] }
        else sa
    let s2 :=
      if s1.text_indexing_options.is_position_enabled then
        let count_bytes := vintBytes s1.position_deltas.length
        let sc := { s1 with
          written_bytes_positions := s1.written_bytes_positions + count_bytes.length
          positions_write := s1.positions_write ++ count_bytes }
        let positions_encoded := compress_unsorted sc.position_deltas
        { sc with
          positions_write := sc.positions_write ++ positions_encoded
          written_bytes_positions :=
            sc.written_bytes_positions + positions_encoded.length
          position_deltas := [] }
      else s1
    { s2 with term_open := false }
  else
    s

/-- PostingsSerializer::close — close any still-open term; finalizing the
dictionary and flushing the sinks leave the modelled state unchanged. -/
def closeSerializer (s : PostingsSerializer) : PostingsSerializer :=
  close_term s

/-- A small schema used to instantiate the theorems on concrete inputs:
a text field with frequencies and positions, a text field with frequencies
only, an untracked text field, an indexed numeric field and a non-indexed
numeric field. -/
def demoSchema : List FieldType :=
  [FieldType.Str .TokenizedWithFreqAndPosition,
   FieldType.Str .TokenizedWithFreq,
   FieldType.Str .Untokenized,
   FieldType.U32 true,
   FieldType.U32 false]

/-- A serializer state over demoSchema with prescribed snapshot, buffers and
lifecycle flag, empty sinks and zero counters. -/
def demoState (opts : TextIndexingOptions) (dids freqs pds : List Nat)
    (tOpen : Bool) : PostingsSerializer :=
  { terms_fst := []
    postings_write := []
    positions_write := []
    written_bytes_postings := 0
    written_bytes_positions := 0
    last_doc_id_encoded := 0
    doc_ids := dids
    term_freqs := freqs
    position_deltas := pds
    schema := demoSchema
    text_indexing_options := opts
    term_open := tOpen }

/-- After close_term no term is open, whatever the starting state. -/
theorem close_term_leaves_idle (s : PostingsSerializer) :
    (close_term s).term_open = false := by
  unfold close_term
  split
  · simp
  · rename_i h
    exact Bool.not_eq_true _ ▸ (by simpa using h)

/-- Claim C9: close_term with no term open is a no-op — it returns the state
unchanged (byte counts, sinks, buffers, baseline and lifecycle flag all
untouched) — and consequently close_term composed with itself equals a
single close_term. -/
theorem close_term_idle_noop_and_idempotent (s : PostingsSerializer) :
    (s.term_open = false → close_term s = s)
    ∧ close_term (close_term s) = close_term s := by
  have noop : ∀ t : PostingsSerializer, t.term_open = false → close_term t = t := by
    intro t ht
    unfold close_term
    simp [ht]
  exact ⟨noop s, noop (close_term s) (close_term_leaves_idle s)⟩

/-- Claim C9 witness: the no-op clause evaluated at a concrete idle state. -/
theorem close_term_idle_noop_witness :
    (demoState .TokenizedWithFreq [3] [1] [] false).term_open = false
    ∧ close_term (demoState .TokenizedWithFreq [3] [1] [] false)
        = demoState .TokenizedWithFreq [3] [1] [] false :=
  ⟨rfl, (close_term_idle_noop_and_idempotent
    (demoState .TokenizedWithFreq [3] [1] [] false)).1 rfl⟩

/-- Claim C7: new_term while a term is already open panics (modelled as none:
no new state, hence none of the open-term effects occur); from the idle
state the panic branch is unreachable and a result is always produced. -/
theorem new_term_panic_iff_term_open (s : PostingsSerializer) (field : Nat)
    (tb : List Nat) (df : Nat) (ok : Bool) :
    (s.term_open = true → new_term s field tb df ok = none)
    ∧ (s.term_open = false → (new_term s field tb df ok).isSome = true) := by
  constructor
  · intro h
    unfold new_term
    simp [h]
  · intro h
    unfold new_term
    simp [h]
    cases ok <;> simp

/-- Claim C7 witness: both clauses at concrete states — a panic with a term
open, a produced result from idle. -/
theorem new_term_panic_iff_term_open_witness :
    (new_term (demoState .Untokenized [] [] [] true) 0 [99] 1 true = none)
    ∧ ((new_term (openSerializer demoSchema) 0 [99] 1 true).isSome = true) :=
  ⟨(new_term_panic_iff_term_open (demoState .Untokenized [] [] [] true)
      0 [99] 1 true).1 rfl,
   (new_term_panic_iff_term_open (openSerializer demoSchema)
      0 [99] 1 true).2 rfl⟩

/-- Claim C5 counterexample: once the running postings byte total reaches
4294967296, the source cast of the usize total to u32 truncates it, so the
inserted postings_offset (here 0) differs from the running total — the
offsets do not always equal the byte totals as claimed. -/
theorem new_term_offset_truncation_cex :
    ({ openSerializer demoSchema with
        written_bytes_postings := 4294967296 } : PostingsSerializer).term_open
      = false
    ∧ (new_term
        ({ openSerializer demoSchema with
            written_bytes_postings := 4294967296 }) 2 [7] 1 true).map
        (fun r => r.1.terms_fst.map fun e => e.2.postings_offset) = some [0]
    ∧ ({ openSerializer demoSchema with
        written_bytes_postings := 4294967296 } : PostingsSerializer).written_bytes_postings
      ≠ 0 := by
  refine ⟨rfl, ?_, by decide⟩
  decide

/-- Claim C5 (amended): a successful new_term call from the idle state
snapshots the resolved indexing options of the field, clears the three
per-term buffers, resets the delta baseline to zero, appends to the
dictionary exactly one TermInfo whose offsets equal the running byte totals
of the two streams at that moment reduced modulo 4294967296 (the source
casts the usize totals to u32; below that bound they are the totals
themselves), leaves every earlier dictionary entry untouched, and marks the
term open. -/
theorem new_term_success_spec (s : PostingsSerializer) (field : Nat)
    (tb : List Nat) (df : Nat) (h : s.term_open = false) :
    new_term s field tb df true
      = some ({ s with
          term_open := true
          text_indexing_options := resolveOptions s.schema field
          doc_ids := []
          last_doc_id_encoded := 0
          term_freqs := []
          position_deltas := []
          terms_fst := s.terms_fst ++
            [(tb, { doc_freq := df
                    postings_offset := s.written_bytes_postings % 4294967296
                    positions_offset := s.written_bytes_positions % 4294967296 })] },
        true) := by
  unfold new_term load_indexing_options
  simp [h]

/-- Claim C5 witness: the amended success equation at a concrete idle state
whose byte totals are below the truncation bound. -/
theorem new_term_success_spec_witness :
    ({ demoState .Unindexed [9] [4] [2] false with
        written_bytes_postings := 11
        written_bytes_positions := 5 } : PostingsSerializer).term_open = false
    ∧ new_term
        ({ demoState .Unindexed [9] [4] [2] false with
            written_bytes_postings := 11
            written_bytes_positions := 5 }) 0 [3, 1] 6 true
      = some ({ ({ demoState .Unindexed [9] [4] [2] false with
            written_bytes_postings := 11
            written_bytes_positions := 5 } : PostingsSerializer) with
          term_open := true
          text_indexing_options := resolveOptions demoSchema 0
          doc_ids := []
          last_doc_id_encoded := 0
          term_freqs := []
          position_deltas := []
          terms_fst := [([3, 1], { doc_freq := 6
                                   postings_offset := 11 % 4294967296
                                   positions_offset := 5 % 4294967296 })] },
        true) :=
  ⟨rfl, new_term_success_spec
    ({ demoState .Unindexed [9] [4] [2] false with
        written_bytes_postings := 11
        written_bytes_positions := 5 }) 0 [3, 1] 6 rfl⟩

/-- Claim C10: new_term is not atomic on error — when the dictionary
insertion fails (insert_ok set to false, modelling an IoError), the
serializer is nonetheless left with the term marked open, all three buffers
cleared, the delta baseline reset to zero and the indexing options
snapshotted; no rollback to the pre-call state occurs (only the dictionary
itself receives nothing). -/
theorem new_term_error_not_rolled_back (s : PostingsSerializer) (field : Nat)
    (tb : List Nat) (df : Nat) (h : s.term_open = false) :
    new_term s field tb df false
      = some ({ s with
          term_open := true
          text_indexing_options := resolveOptions s.schema field
          doc_ids := []
          last_doc_id_encoded := 0
          term_freqs := []
          position_deltas := [] },
        false) := by
  unfold new_term load_indexing_options
  simp [h]

/-- Claim C10 witness: the error-path equation at a concrete idle state with
non-empty buffers, showing them cleared and the term left open despite the
failed insertion. -/
theorem new_term_error_not_rolled_back_witness :
    (demoState .TokenizedWithFreq [8, 9] [1, 1] [4] false).term_open = false
    ∧ new_term (demoState .TokenizedWithFreq [8, 9] [1, 1] [4] false) 1 [5] 2 false
      = some ({ demoState .TokenizedWithFreq [8, 9] [1, 1] [4] false with
          term_open := true
          text_indexing_options := resolveOptions demoSchema 1
          doc_ids := []
          last_doc_id_encoded := 0
          term_freqs := []
          position_deltas := [] },
        false) :=
  ⟨rfl, new_term_error_not_rolled_back
    (demoState .TokenizedWithFreq [8, 9] [1, 1] [4] false) 1 [5] 2 rfl⟩

/-- Claim C1 counterexample: with no term open (idle state straight after
opening the serializer) write_doc does not fail — it proceeds normally,
silently buffering the document id and leaving everything else unchanged;
there is no protocol check on this path in the source. -/
theorem write_doc_idle_accepted_cex :
    (openSerializer demoSchema).term_open = false
    ∧ write_doc (openSerializer demoSchema) 5 1 []
        = { openSerializer demoSchema with doc_ids := [5] } := by
  constructor
  · rfl
  · decide

/-- Claim C1 (amended): write_doc performs no protocol check at all — it
neither inspects nor alters the lifecycle flag, so a call made while no term
is open silently proceeds with the normal write effects instead of failing;
only new_term detects a protocol violation. -/
theorem write_doc_ignores_lifecycle_flag (s : PostingsSerializer) (b : Bool)
    (doc_id term_freq : Nat) (pds : List Nat) :
    write_doc { s with term_open := b } doc_id term_freq pds
      = { write_doc s doc_id term_freq pds with term_open := b } := by
  unfold write_doc
  dsimp only
  split_ifs <;> rfl

/-- Folding the per-value VInt write of close_term over a list appends the
concatenated encodings and advances the postings byte count by their total
length. -/
theorem foldl_vint_write (l : List Nat) (acc : PostingsSerializer) :
    l.foldl (fun acc num =>
      { acc with
        written_bytes_postings := acc.written_bytes_postings + (vintBytes num).length
        postings_write := acc.postings_write ++ vintBytes num }) acc
    = { acc with
        written_bytes_postings :=
          acc.written_bytes_postings + (l.flatMap vintBytes).length
        postings_write := acc.postings_write ++ l.flatMap vintBytes } := by
  induction l generalizing acc with
  | nil => simp
  | cons a t ih =>
    simp only [List.foldl_cons, ih, List.flatMap_cons, List.length_append,
      List.append_assoc]
    congr 1
    omega

/-- Claim C3: close_term with a term open — a non-empty pending document-id
buffer is flushed as the sorted VInt fallback baselined at
last_doc_id_encoded and cleared and, exactly when frequency tracking is
active, the pending frequencies follow as individually serialized VInt
values (each length added to the byte count) and their buffer is cleared;
with an empty document-id buffer the postings stream and its byte count are
untouched. -/
theorem close_term_postings_tail (s : PostingsSerializer)
    (h : s.term_open = true) :
    (s.doc_ids ≠ [] →
      ((close_term s).postings_write
          = s.postings_write
            ++ compress_vint_sorted s.doc_ids s.last_doc_id_encoded
            ++ (if s.text_indexing_options.is_termfreq_enabled then
                  (compress_vint_unsorted s.term_freqs).flatMap vintBytes
                else [])
        ∧ (close_term s).written_bytes_postings
            = s.written_bytes_postings
              + (compress_vint_sorted s.doc_ids s.last_doc_id_encoded).length
              + (if s.text_indexing_options.is_termfreq_enabled then
                   ((compress_vint_unsorted s.term_freqs).flatMap vintBytes).length
                 else 0)
        ∧ (close_term s).doc_ids = []
        ∧ (close_term s).term_freqs
            = (if s.text_indexing_options.is_termfreq_enabled then []
               else s.term_freqs)))
    ∧ (s.doc_ids = [] →
        ((close_term s).postings_write = s.postings_write
          ∧ (close_term s).written_bytes_postings = s.written_bytes_postings)) := by
  constructor
  · intro hne
    unfold close_term
    cases hf : s.text_indexing_options.is_termfreq_enabled <;>
      cases hp : s.text_indexing_options.is_position_enabled <;>
        simp [h, hne, hf, hp, foldl_vint_write, Nat.add_assoc]
  · intro he
    unfold close_term
    cases hp : s.text_indexing_options.is_position_enabled <;>
      simp [h, he, hp]

/-- Claim C3 witness: the tail flush at a concrete open state with a partial
block and frequencies active, and the empty-buffer case at a concrete open
state. -/
theorem close_term_postings_tail_witness :
    ((demoState .TokenizedWithFreq [1, 3, 7] [2, 1, 1] [] true).doc_ids ≠ []
      ∧ ((close_term (demoState .TokenizedWithFreq [1, 3, 7] [2, 1, 1] [] true)).postings_write
          = (demoState .TokenizedWithFreq [1, 3, 7] [2, 1, 1] [] true).postings_write
            ++ compress_vint_sorted
                (demoState .TokenizedWithFreq [1, 3, 7] [2, 1, 1] [] true).doc_ids
                (demoState .TokenizedWithFreq [1, 3, 7] [2, 1, 1] [] true).last_doc_id_encoded
            ++ (if (demoState .TokenizedWithFreq [1, 3, 7] [2, 1, 1] [] true).text_indexing_options.is_termfreq_enabled then
                  (compress_vint_unsorted
                    (demoState .TokenizedWithFreq [1, 3, 7] [2, 1, 1] [] true).term_freqs).flatMap vintBytes
                else [])
        ∧ (close_term (demoState .TokenizedWithFreq [1, 3, 7] [2, 1, 1] [] true)).written_bytes_postings
            = (demoState .TokenizedWithFreq [1, 3, 7] [2, 1, 1] [] true).written_bytes_postings
              + (compress_vint_sorted
                  (demoState .TokenizedWithFreq [1, 3, 7] [2, 1, 1] [] true).doc_ids
                  (demoState .TokenizedWithFreq [1, 3, 7] [2, 1, 1] [] true).last_doc_id_encoded).length
              + (if (demoState .TokenizedWithFreq [1, 3, 7] [2, 1, 1] [] true).text_indexing_options.is_termfreq_enabled then
                   ((compress_vint_unsorted
                      (demoState .TokenizedWithFreq [1, 3, 7] [2, 1, 1] [] true).term_freqs).flatMap vintBytes).length
                 else 0)
        ∧ (close_term (demoState .TokenizedWithFreq [1, 3, 7] [2, 1, 1] [] true)).doc_ids = []
        ∧ (close_term (demoState .TokenizedWithFreq [1, 3, 7] [2, 1, 1] [] true)).term_freqs
            = (if (demoState .TokenizedWithFreq [1, 3, 7] [2, 1, 1] [] true).text_indexing_options.is_termfreq_enabled then []
               else (demoState .TokenizedWithFreq [1, 3, 7] [2, 1, 1] [] true).term_freqs)))
    ∧ ((demoState .TokenizedWithFreq [] [] [] true).doc_ids = []
      ∧ ((close_term (demoState .TokenizedWithFreq [] [] [] true)).postings_write
          = (demoState .TokenizedWithFreq [] [] [] true).postings_write
        ∧ (close_term (demoState .TokenizedWithFreq [] [] [] true)).written_bytes_postings
          = (demoState .TokenizedWithFreq [] [] [] true).written_bytes_postings)) :=
  ⟨⟨by decide,
    (close_term_postings_tail (demoState .TokenizedWithFreq [1, 3, 7] [2, 1, 1] [] true)
      rfl).1 (by decide)⟩,
   ⟨rfl,
    (close_term_postings_tail (demoState .TokenizedWithFreq [] [] [] true)
      rfl).2 rfl⟩⟩

/-- Claim C4: close_term with a term open — when position tracking is active
exactly one VInt count of pending position deltas (written even when zero)
precedes the unsorted encoding of the whole pending delta sequence on the
positions stream, the positions byte count advances by both lengths, and the
buffer is cleared; when position tracking is inactive the positions stream
and its byte count are untouched. -/
theorem close_term_positions_flush (s : PostingsSerializer)
    (h : s.term_open = true) :
    (s.text_indexing_options.is_position_enabled = true →
      ((close_term s).positions_write
          = s.positions_write
            ++ vintBytes s.position_deltas.length
            ++ compress_unsorted s.position_deltas
        ∧ (close_term s).written_bytes_positions
            = s.written_bytes_positions
              + (vintBytes s.position_deltas.length).length
              + (compress_unsorted s.position_deltas).length
        ∧ (close_term s).position_deltas = []))
    ∧ (s.text_indexing_options.is_position_enabled = false →
        ((close_term s).positions_write = s.positions_write
          ∧ (close_term s).written_bytes_positions
              = s.written_bytes_positions)) := by
  constructor
  · intro hp
    unfold close_term
    by_cases he : s.doc_ids = [] <;>
      cases hf : s.text_indexing_options.is_termfreq_enabled <;>
        simp [h, he, hp, hf, foldl_vint_write, Nat.add_assoc]
  · intro hp
    unfold close_term
    by_cases he : s.doc_ids = [] <;>
      cases hf : s.text_indexing_options.is_termfreq_enabled <;>
        simp [h, he, hp, hf, foldl_vint_write]

/-- Claim C4 witness: the positions flush at a concrete open state carrying
the position deltas of the specification scenario, and the inactive case at
a concrete open state, where the positions stream stays untouched. -/
theorem close_term_positions_flush_witness :
    ((demoState .TokenizedWithFreqAndPosition [1, 3, 7] [2, 1, 1] [0, 5, 2, 9] true).text_indexing_options.is_position_enabled = true
      ∧ ((close_term (demoState .TokenizedWithFreqAndPosition [1, 3, 7] [2, 1, 1] [0, 5, 2, 9] true)).positions_write
          = (demoState .TokenizedWithFreqAndPosition [1, 3, 7] [2, 1, 1] [0, 5, 2, 9] true).positions_write
            ++ vintBytes (demoState .TokenizedWithFreqAndPosition [1, 3, 7] [2, 1, 1] [0, 5, 2, 9] true).position_deltas.length
            ++ compress_unsorted (demoState .TokenizedWithFreqAndPosition [1, 3, 7] [2, 1, 1] [0, 5, 2, 9] true).position_deltas
        ∧ (close_term (demoState .TokenizedWithFreqAndPosition [1, 3, 7] [2, 1, 1] [0, 5, 2, 9] true)).written_bytes_positions
            = (demoState .TokenizedWithFreqAndPosition [1, 3, 7] [2, 1, 1] [0, 5, 2, 9] true).written_bytes_positions
              + (vintBytes (demoState .TokenizedWithFreqAndPosition [1, 3, 7] [2, 1, 1] [0, 5, 2, 9] true).position_deltas.length).length
              + (compress_unsorted (demoState .TokenizedWithFreqAndPosition [1, 3, 7] [2, 1, 1] [0, 5, 2, 9] true).position_deltas).length
        ∧ (close_term (demoState .TokenizedWithFreqAndPosition [1, 3, 7] [2, 1, 1] [0, 5, 2, 9] true)).position_deltas = []))
    ∧ ((demoState .TokenizedWithFreq [4] [1] [] true).text_indexing_options.is_position_enabled = false
      ∧ ((close_term (demoState .TokenizedWithFreq [4] [1] [] true)).positions_write
          = (demoState .TokenizedWithFreq [4] [1] [] true).positions_write
        ∧ (close_term (demoState .TokenizedWithFreq [4] [1] [] true)).written_bytes_positions
          = (demoState .TokenizedWithFreq [4] [1] [] true).written_bytes_positions)) :=
  ⟨⟨rfl,
    (close_term_positions_flush
      (demoState .TokenizedWithFreqAndPosition [1, 3, 7] [2, 1, 1] [0, 5, 2, 9] true)
      rfl).1 rfl⟩,
   ⟨rfl,
    (close_term_positions_flush (demoState .TokenizedWithFreq [4] [1] [] true)
      rfl).2 rfl⟩⟩

/-- Claim C2: a write_doc call that brings the pending document-id buffer to
exactly NUM_DOCS_PER_BLOCK flushes it — the sorted full-block encoding of
the block baselined at last_flushed_doc_id is appended to the postings
stream and counted, last_doc_id_encoded becomes the last document id of the
block (the id just written), exactly when frequency tracking is active the
unsorted full-block encoding of the frequencies follows and that buffer is
cleared, and the document-id buffer is cleared; a call that leaves the
buffer below the block length writes nothing to the postings stream. -/
theorem write_doc_block_flush (s : PostingsSerializer) (doc_id term_freq : Nat)
    (pds : List Nat) :
    (s.doc_ids.length + 1 = NUM_DOCS_PER_BLOCK →
      ((write_doc s doc_id term_freq pds).postings_write
          = s.postings_write
            ++ compress_block_sorted (s.doc_ids ++ [doc_id]) s.last_doc_id_encoded
            ++ (if s.text_indexing_options.is_termfreq_enabled then
                  compress_block_unsorted (s.term_freqs ++ [term_freq])
                else [])
        ∧ (write_doc s doc_id term_freq pds).written_bytes_postings
            = s.written_bytes_postings
              + (compress_block_sorted (s.doc_ids ++ [doc_id])
                  s.last_doc_id_encoded).length
              + (if s.text_indexing_options.is_termfreq_enabled then
                   (compress_block_unsorted (s.term_freqs ++ [term_freq])).length
                 else 0)
        ∧ (write_doc s doc_id term_freq pds).last_doc_id_encoded = doc_id
        ∧ (write_doc s doc_id term_freq pds).term_freqs
            = (if s.text_indexing_options.is_termfreq_enabled then []
               else s.term_freqs)
        ∧ (write_doc s doc_id term_freq pds).doc_ids = []))
    ∧ (s.doc_ids.length + 1 < NUM_DOCS_PER_BLOCK →
        ((write_doc s doc_id term_freq pds).postings_write = s.postings_write
          ∧ (write_doc s doc_id term_freq pds).written_bytes_postings
              = s.written_bytes_postings
          ∧ (write_doc s doc_id term_freq pds).doc_ids
              = s.doc_ids ++ [doc_id])) := by
  constructor
  · intro h
    unfold write_doc
    cases hf : s.text_indexing_options.is_termfreq_enabled <;>
      cases hp : s.text_indexing_options.is_position_enabled <;>
        simp [hf, hp, List.length_append, h, List.getLastD_concat, Nat.add_assoc]
  · intro h
    have hne : ¬ (s.doc_ids.length + 1 = NUM_DOCS_PER_BLOCK) := by omega
    unfold write_doc
    cases hf : s.text_indexing_options.is_termfreq_enabled <;>
      cases hp : s.text_indexing_options.is_position_enabled <;>
        simp [hf, hp, List.length_append, hne]

/-- A concrete open-term state whose pending document-id buffer holds one
document fewer than the block length, used to exercise the flush. -/
def nearFullState : PostingsSerializer :=
  demoState .TokenizedWithFreq (List.range 127) (List.replicate 127 1) [] true

/-- Claim C2 witness: the flush clause applied where the 128th document
arrives, and the below-block clause at a concrete one-element buffer. -/
theorem write_doc_block_flush_witness :
    (nearFullState.doc_ids.length + 1 = NUM_DOCS_PER_BLOCK
      ∧ ((write_doc nearFullState 200 3 []).postings_write
          = nearFullState.postings_write
            ++ compress_block_sorted (nearFullState.doc_ids ++ [200])
                nearFullState.last_doc_id_encoded
            ++ (if nearFullState.text_indexing_options.is_termfreq_enabled then
                  compress_block_unsorted (nearFullState.term_freqs ++ [3])
                else [])
        ∧ (write_doc nearFullState 200 3 []).written_bytes_postings
            = nearFullState.written_bytes_postings
              + (compress_block_sorted (nearFullState.doc_ids ++ [200])
                  nearFullState.last_doc_id_encoded).length
              + (if nearFullState.text_indexing_options.is_termfreq_enabled then
                   (compress_block_unsorted (nearFullState.term_freqs ++ [3])).length
                 else 0)
        ∧ (write_doc nearFullState 200 3 []).last_doc_id_encoded = 200
        ∧ (write_doc nearFullState 200 3 []).term_freqs
            = (if nearFullState.text_indexing_options.is_termfreq_enabled then []
               else nearFullState.term_freqs)
        ∧ (write_doc nearFullState 200 3 []).doc_ids = []))
    ∧ ((demoState .TokenizedWithFreq [10] [2] [] true).doc_ids.length + 1
          < NUM_DOCS_PER_BLOCK
      ∧ ((write_doc (demoState .TokenizedWithFreq [10] [2] [] true) 12 1 []).postings_write
            = (demoState .TokenizedWithFreq [10] [2] [] true).postings_write
        ∧ (write_doc (demoState .TokenizedWithFreq [10] [2] [] true) 12 1 []).written_bytes_postings
            = (demoState .TokenizedWithFreq [10] [2] [] true).written_bytes_postings
        ∧ (write_doc (demoState .TokenizedWithFreq [10] [2] [] true) 12 1 []).doc_ids
            = (demoState .TokenizedWithFreq [10] [2] [] true).doc_ids ++ [12])) :=
  ⟨⟨by decide,
    (write_doc_block_flush nearFullState 200 3 []).1 (by decide)⟩,
   ⟨by decide,
    (write_doc_block_flush (demoState .TokenizedWithFreq [10] [2] [] true)
      12 1 []).2 (by decide)⟩⟩

/-- From the idle state new_term always produces a state with the term open,
the options snapshotted, the buffers cleared and the baseline reset; the
dictionary receives its entry exactly when the insertion succeeds. -/
theorem new_term_idle_eq (s : PostingsSerializer) (field : Nat) (tb : List Nat)
    (df : Nat) (ok : Bool) (h : s.term_open = false) :
    new_term s field tb df ok
      = some ({ s with
          term_open := true
          text_indexing_options := resolveOptions s.schema field
          doc_ids := []
          last_doc_id_encoded := 0
          term_freqs := []
          position_deltas := []
          terms_fst := s.terms_fst ++
            (if ok then
              [(tb, { doc_freq := df
                      postings_offset := s.written_bytes_postings % 4294967296
                      positions_offset := s.written_bytes_positions % 4294967296 })]
             else []) }, ok) := by
  cases ok <;> simp [new_term, load_indexing_options, h]

/-- Claim C6: a term over a numeric (U32) field gets a snapshot with both
term-frequency and position tracking disabled, whatever its indexed flag;
and under such a snapshot write_doc touches neither the positions stream nor
the frequency buffer and appends to the postings stream nothing but the
document-id encoding (and only at a block boundary). -/
theorem numeric_field_only_doc_ids (s t : PostingsSerializer) (field : Nat)
    (b : Bool) (tb : List Nat) (df : Nat) (ok : Bool) (d f : Nat)
    (p : List Nat)
    (hU : s.schema.getD field (FieldType.Str .Unindexed) = FieldType.U32 b)
    (hIdle : s.term_open = false)
    (ht1 : t.text_indexing_options.is_termfreq_enabled = false)
    (ht2 : t.text_indexing_options.is_position_enabled = false) :
    (∃ s' res, new_term s field tb df ok = some (s', res)
      ∧ s'.text_indexing_options.is_termfreq_enabled = false
      ∧ s'.text_indexing_options.is_position_enabled = false)
    ∧ ((write_doc t d f p).positions_write = t.positions_write
      ∧ (write_doc t d f p).written_bytes_positions = t.written_bytes_positions
      ∧ (write_doc t d f p).position_deltas = t.position_deltas
      ∧ (write_doc t d f p).term_freqs = t.term_freqs
      ∧ (write_doc t d f p).postings_write
          = t.postings_write ++
            (if (t.doc_ids ++ [d]).length = NUM_DOCS_PER_BLOCK then
              compress_block_sorted (t.doc_ids ++ [d]) t.last_doc_id_encoded
            else [])) := by
  have hopts : resolveOptions s.schema field
      = (if b then .Unindexed else .Untokenized) := by
    unfold resolveOptions
    rw [hU]
  constructor
  · refine ⟨_, ok, new_term_idle_eq s field tb df ok hIdle, ?_, ?_⟩ <;>
      simp only [] <;> rw [hopts] <;> cases b <;> rfl
  · unfold write_doc
    simp only [ht1, ht2, Bool.false_eq_true, if_false]
    split_ifs <;> simp

/-- Claim C6 witness: opening a term on the indexed numeric field of
demoSchema yields a snapshot with both features off, and a write under such
a snapshot (concrete untracked open state) touches neither positions nor
frequencies and appends no block below the boundary. -/
theorem numeric_field_only_doc_ids_witness :
    ((openSerializer demoSchema).schema.getD 3 (FieldType.Str .Unindexed)
        = FieldType.U32 true
      ∧ (openSerializer demoSchema).term_open = false
      ∧ (demoState .Untokenized [1] [] [] true).text_indexing_options.is_termfreq_enabled = false
      ∧ (demoState .Untokenized [1] [] [] true).text_indexing_options.is_position_enabled = false)
    ∧ (∃ s' res, new_term (openSerializer demoSchema) 3 [7] 2 true = some (s', res)
      ∧ s'.text_indexing_options.is_termfreq_enabled = false
      ∧ s'.text_indexing_options.is_position_enabled = false)
    ∧ ((write_doc (demoState .Untokenized [1] [] [] true) 2 9 [4]).positions_write
          = (demoState .Untokenized [1] [] [] true).positions_write
      ∧ (write_doc (demoState .Untokenized [1] [] [] true) 2 9 [4]).written_bytes_positions
          = (demoState .Untokenized [1] [] [] true).written_bytes_positions
      ∧ (write_doc (demoState .Untokenized [1] [] [] true) 2 9 [4]).position_deltas
          = (demoState .Untokenized [1] [] [] true).position_deltas
      ∧ (write_doc (demoState .Untokenized [1] [] [] true) 2 9 [4]).term_freqs
          = (demoState .Untokenized [1] [] [] true).term_freqs
      ∧ (write_doc (demoState .Untokenized [1] [] [] true) 2 9 [4]).postings_write
          = (demoState .Untokenized [1] [] [] true).postings_write ++
            (if ((demoState .Untokenized [1] [] [] true).doc_ids ++ [2]).length
                = NUM_DOCS_PER_BLOCK then
              compress_block_sorted
                ((demoState .Untokenized [1] [] [] true).doc_ids ++ [2])
                (demoState .Untokenized [1] [] [] true).last_doc_id_encoded
            else [])) :=
  ⟨⟨rfl, rfl, rfl, rfl⟩,
   numeric_field_only_doc_ids (openSerializer demoSchema)
     (demoState .Untokenized [1] [] [] true) 3 true [7] 2 true 2 9 [4]
     rfl rfl rfl rfl⟩

/-- write_doc never changes the snapshotted indexing options. -/
theorem write_doc_options_eq (t : PostingsSerializer) (d f : Nat)
    (p : List Nat) :
    (write_doc t d f p).text_indexing_options = t.text_indexing_options := by
  unfold write_doc
  dsimp only
  split_ifs <;> rfl

/-- close_term never changes the snapshotted indexing options. -/
theorem close_term_options_eq (u : PostingsSerializer) :
    (close_term u).text_indexing_options = u.text_indexing_options := by
  unfold close_term
  dsimp only
  split_ifs <;> simp [foldl_vint_write]

/-- The alignment invariant: with frequency tracking active, the pending
frequency buffer has exactly one entry per pending document id. -/
def freqAligned (s : PostingsSerializer) : Prop :=
  s.text_indexing_options.is_termfreq_enabled = true →
    s.term_freqs.length = s.doc_ids.length

/-- Claim C8: every operation preserves the alignment invariant — new_term
establishes it by clearing both buffers, write_doc pushes or clears the two
buffers in lockstep when frequencies are active, close_term clears or leaves
both — and the pending position deltas accumulate independently of the
document-id block boundary: a write_doc call always appends exactly its
deltas (when positions are active) and never truncates the buffer on a
block flush. -/
theorem pending_buffers_invariant (s t u s' : PostingsSerializer)
    (field : Nat) (tb : List Nat) (df : Nat) (ok res : Bool) (d f : Nat)
    (p : List Nat)
    (hnew : new_term s field tb df ok = some (s', res))
    (ht : freqAligned t) (hu : freqAligned u) :
    freqAligned s'
    ∧ freqAligned (write_doc t d f p)
    ∧ freqAligned (close_term u)
    ∧ (write_doc t d f p).position_deltas
        = t.position_deltas
          ++ (if t.text_indexing_options.is_position_enabled then p else []) := by
  refine ⟨?_, ?_, ?_, ?_⟩
  · by_cases hso : s.term_open = true
    · unfold new_term at hnew
      simp [hso] at hnew
    · rw [new_term_idle_eq s field tb df ok (by simpa using hso)] at hnew
      simp only [Option.some.injEq, Prod.mk.injEq] at hnew
      obtain ⟨h1, -⟩ := hnew
      subst h1
      intro _
      rfl
  · intro hen
    rw [write_doc_options_eq] at hen
    have hlen := ht hen
    unfold write_doc
    dsimp only
    split_ifs <;> simp_all [List.length_append]
  · intro hen
    rw [close_term_options_eq] at hen
    have hlen := hu hen
    unfold close_term
    dsimp only
    split_ifs <;> simp_all [foldl_vint_write, List.isEmpty_iff]
  · unfold write_doc
    dsimp only
    split_ifs <;> simp_all

/-- Claim C8 witness: the invariant discharged at concrete states — a fresh
term opened from idle, a tracked open state receiving a document, a tracked
open state being closed, and the position-delta accumulation across a
non-boundary write. -/
theorem pending_buffers_invariant_witness :
    (new_term (openSerializer demoSchema) 1 [2] 3 true
        = some ({ openSerializer demoSchema with
            term_open := true
            text_indexing_options := resolveOptions demoSchema 1
            doc_ids := []
            last_doc_id_encoded := 0
            term_freqs := []
            position_deltas := []
            terms_fst := [([2], { doc_freq := 3
                                  postings_offset := 0
                                  positions_offset := 0 })] }, true)
      ∧ freqAligned (demoState .TokenizedWithFreq [4, 6] [1, 2] [] true)
      ∧ freqAligned (demoState .TokenizedWithFreqAndPosition [4, 6] [1, 2] [3] true))
    ∧ (freqAligned ({ openSerializer demoSchema with
          term_open := true
          text_indexing_options := resolveOptions demoSchema 1
          doc_ids := []
          last_doc_id_encoded := 0
          term_freqs := []
          position_deltas := []
          terms_fst := [([2], { doc_freq := 3
                                postings_offset := 0
                                positions_offset := 0 })] } : PostingsSerializer)
      ∧ freqAligned (write_doc (demoState .TokenizedWithFreq [4, 6] [1, 2] [] true) 9 5 [])
      ∧ freqAligned (close_term (demoState .TokenizedWithFreqAndPosition [4, 6] [1, 2] [3] true))
      ∧ (write_doc (demoState .TokenizedWithFreq [4, 6] [1, 2] [] true) 9 5 []).position_deltas
          = (demoState .TokenizedWithFreq [4, 6] [1, 2] [] true).position_deltas
            ++ (if (demoState .TokenizedWithFreq [4, 6] [1, 2] [] true).text_indexing_options.is_position_enabled
                then [] else [])) :=
  ⟨⟨by decide, fun _ => rfl, fun _ => rfl⟩,
   pending_buffers_invariant (openSerializer demoSchema)
     (demoState .TokenizedWithFreq [4, 6] [1, 2] [] true)
     (demoState .TokenizedWithFreqAndPosition [4, 6] [1, 2] [3] true)
     ({ openSerializer demoSchema with
        term_open := true
        text_indexing_options := resolveOptions demoSchema 1
        doc_ids := []
        last_doc_id_encoded := 0
        term_freqs := []
        position_deltas := []
        terms_fst := [([2], { doc_freq := 3
                              postings_offset := 0
                              positions_offset := 0 })] })
     1 [2] 3 true true 9 5 []
     (by decide) (fun _ => rfl) (fun _ => rfl)⟩

end Tantivy
